import Mathlib

/-!
Shallow embedding of `cpp/src/arrow/util/logging.cc` (Apache Arrow logging
facade, guoyuhong fork).  The file defines two backends: `CerrLog`, the direct
console sink used when `ARROW_USE_GLOG` is not defined, and a delegated glog
backend used when it is.  Console I/O, glog configuration calls and process
termination are modelled as an explicit list of `Event`s produced by each
operation; mutable objects (`CerrLog`, the process-wide `ArrowLog` statics)
are threaded as explicit state.
-/

namespace ArrowLogging

/-- Modelled from the spec: the severity constants `ARROW_DEBUG` .. `ARROW_FATAL`
are defined in `arrow/util/logging.h`, which is not part of the sources; the
spec describes them as an ordered enumeration DEBUG < INFO < WARNING < ERROR
< FATAL with FATAL maximal.  The numeric values below realise that order
(matching the conventional Arrow/Ray values, with `ARROW_INFO = 0` so that the
static initialiser `severity_threshold_ = ARROW_INFO` is meaningful). -/
def ARROW_DEBUG : Int := -1

/-- Severity INFO (see `ARROW_DEBUG` for the modelling note). -/
def ARROW_INFO : Int := 0

/-- Severity WARNING. -/
def ARROW_WARNING : Int := 1

/-- Severity ERROR. -/
def ARROW_ERROR : Int := 2

/-- Severity FATAL, the maximal severity. -/
def ARROW_FATAL : Int := 3

/-- Output channels.  `stdout`/`stderr` are the process console streams;
`glogStream` is the delegated external subsystem's own stream (opaque to this
facade). -/
inductive Chan : Type where
  | stdout : Chan
  | stderr : Chan
  | glogStream : Chan
  deriving DecidableEq, Repr

/-- POSIX file descriptors: fd 1 is standard output, fd 2 is standard error.
`backtrace_symbols_fd(buffer, calls, 1)` in `CerrLog::PrintBackTrace` writes
to fd 1. -/
def fdToChan (fd : Nat) : Chan :=
  if fd = 2 then Chan.stderr else Chan.stdout

/-- Observable events of the facade: a write of a string to a channel, a line
terminator (`std::endl`), a backtrace dump (`backtrace_symbols_fd`), and the
`std::abort()` call terminating the process. -/
inductive Event : Type where
  | write : Chan → String → Event
  | endl : Chan → Event
  | backtrace : Chan → Event
  | abortEv : Event
  deriving DecidableEq, Repr

/-- Whether an event is a console write (write/endl/backtrace) on channel `c`.
`abortEv` is not a write. -/
def Event.onChan (c : Chan) : Event → Bool
  | Event.write c2 _ => c2 = c
  | Event.endl c2 => c2 = c
  | Event.backtrace c2 => c2 = c
  | Event.abortEv => false

/-- Number of line terminators emitted to standard error in an event list. -/
def countStderrEndl (es : List Event) : Nat :=
  (es.filter (fun e => e = Event.endl Chan.stderr)).length

/-- The text visible on standard error: concatenation of stderr writes, with
`std::endl` rendered as a newline character. -/
def stderrText (es : List Event) : String :=
  es.foldl
    (fun acc e =>
      match e with
      | Event.write Chan.stderr s => acc ++ s
      | Event.endl Chan.stderr => acc ++ "\n"
      | _ => acc)
    ""

/-! ## CerrLog: the direct console sink (logging.cc lines 36-75) -/

/-- State of a `CerrLog` object: `const int severity_` and `bool has_logged_`. -/
structure CerrLog : Type where
  severity_ : Int
  has_logged_ : Bool
  deriving DecidableEq, Repr

/-- Embeds `CerrLog::CerrLog(int severity) : severity_(severity), has_logged_(false)`. -/
def CerrLog.new (severity : Int) : CerrLog :=
  { severity_ := severity, has_logged_ := false }

/-- Embeds `CerrLog::operator<<(const T& t)`: if `severity_ != ARROW_DEBUG`, set
`has_logged_` and write `t` to `std::cerr`; otherwise do nothing.  Returns the
updated object and the emitted events. -/
def CerrLog.append (log : CerrLog) (t : String) : CerrLog × List Event :=
  if log.severity_ ≠ ARROW_DEBUG then
    ({ log with has_logged_ := true }, [Event.write Chan.stderr t])
  else
    (log, [])

/-- Embeds `CerrLog::Stream()`: sets `has_logged_ = true` and returns `std::cerr`
(raw access to the stream; the returned stream writes are not mediated by the
DEBUG check). -/
def CerrLog.streamAccess (log : CerrLog) : CerrLog :=
  { log with has_logged_ := true }

/-- Embeds `CerrLog::PrintBackTrace()`: `backtrace_symbols_fd(buffer, calls, 1)` —
the symbolised backtrace is written to file descriptor 1. -/
def CerrLog.printBackTrace : List Event :=
  [Event.backtrace (fdToChan 1)]

/-- Embeds `CerrLog::~CerrLog()`: if `has_logged_`, write `std::endl` to `std::cerr`;
then, if `severity_ == ARROW_FATAL`, call `PrintBackTrace()` and `std::abort()`. -/
def CerrLog.destroy (log : CerrLog) : List Event :=
  (if log.has_logged_ then [Event.endl Chan.stderr] else []) ++
    (if log.severity_ = ARROW_FATAL then
      CerrLog.printBackTrace ++ [Event.abortEv]
    else [])

/-! ## Glog severity mapping (logging.cc lines 81-103) -/

/-- glog severity `google::GLOG_INFO`. -/
def GLOG_INFO : Int := 0

/-- glog severity `google::GLOG_WARNING`. -/
def GLOG_WARNING : Int := 1

/-- glog severity `google::GLOG_ERROR`. -/
def GLOG_ERROR : Int := 2

/-- glog severity `google::GLOG_FATAL`. -/
def GLOG_FATAL : Int := 3

/-- Embeds `GetMappedSeverity(int severity)`: maps the five Arrow severities to glog
severities; the `default` branch executes
`ARROW_LOG(FATAL) << "Unsupported logging level: " << severity` — under the
glog backend this opens a glog FATAL record, whose destruction writes the
message and aborts the process — and then contains the unreachable
`return google::GLOG_FATAL`.  The second component is the events of the call. -/
def GetMappedSeverity (severity : Int) : Int × List Event :=
  if severity = ARROW_DEBUG then (GLOG_INFO, [])
  else if severity = ARROW_INFO then (GLOG_INFO, [])
  else if severity = ARROW_WARNING then (GLOG_WARNING, [])
  else if severity = ARROW_ERROR then (GLOG_ERROR, [])
  else if severity = ARROW_FATAL then (GLOG_FATAL, [])
  else
    (GLOG_FATAL,
      [Event.write Chan.stderr ("Unsupported logging level: " ++ toString severity),
       Event.abortEv])

/-! ## Process-wide logging state (logging.cc lines 77-79) -/

/-- Backend selection: `glog` when the translation unit is compiled with
`ARROW_USE_GLOG`, `cerr` otherwise.  Fixed at process-configuration time. -/
inductive Backend : Type where
  | cerr : Backend
  | glog : Backend
  deriving DecidableEq, Repr

/-- The static members of `ArrowLog`:
`int severity_threshold_`, `unique_ptr<char[]> app_name_`,
`std::string working_dir_`.  `app_name_` is `none` while the unique_ptr is
null (before `StartArrowLog`). -/
structure LogState : Type where
  severity_threshold_ : Int
  app_name_ : Option String
  working_dir_ : String
  deriving DecidableEq, Repr

/-- Static initialisers: `severity_threshold_ = ARROW_INFO`, null `app_name_`,
empty `working_dir_`. -/
def initialLogState : LogState :=
  { severity_threshold_ := ARROW_INFO, app_name_ := none, working_dir_ := "" }

/-- Configuration calls made into glog by `StartArrowLog`
(`SetStderrLogging`, `SetLogFilenameExtension`, `SetLogDestination`).
All fields stay at their defaults when glog is not in use. -/
structure GlogConfig : Type where
  initialized : Bool := false
  stderrSeverity : Option Int := none
  filenameExtension : Option String := none
  logDestination : Option (Int × String) := none
  deriving DecidableEq, Repr

/-- logging.cc lines 123-126: the local `dir_ends_with_slash` — a copy of
`log_dir` with a trailing `"/"` appended when its last character is not `'/'`
(the branch is only reached for non-empty `log_dir`, so indexing
`log_dir[length-1]` is safe).  Note this local is dead code in the source:
line 138 passes the original `log_dir`, not this copy, to
`SetLogDestination`. -/
def dirEndsWithSlash (log_dir : String) : String :=
  if log_dir.back ≠ '/' then log_dir ++ "/" else log_dir

/-- Index of the last `'/'` in a character list, as `std::string::rfind('/')`
computes it (`none` for `npos`). -/
def lastSlashIdx : List Char → Option Nat
  | [] => none
  | c :: cs =>
    match lastSlashIdx cs with
    | some i => some (i + 1)
    | none => if c = '/' then some 0 else none

/-- logging.cc lines 127-136: the log-file tag derived from `app_name`.
Empty name becomes `"DefaultApp"`; otherwise, when `rfind('/')` finds a
position `pos` with `pos + 1 < length`, the name is replaced by
`substr(pos + 1)`; in every other case the name is used unchanged. -/
def appNameWithoutPath (app_name : String) : String :=
  if app_name = "" then "DefaultApp"
  else
    match lastSlashIdx app_name.data with
    | some pos =>
      if pos + 1 < app_name.length then
        String.mk (app_name.data.drop (pos + 1))
      else app_name
    | none => app_name

/-- Embeds `ArrowLog::StartArrowLog(app_name, severity_threshold, log_dir)`
(logging.cc lines 112-146).  The glog-only part (lines 114-140, under
`#ifdef ARROW_USE_GLOG`) records the threshold, copies the app name, maps the
threshold (which aborts on an unrecognised value), initialises glog, and when
`log_dir` is non-empty configures file output: `SetLogFilenameExtension`
receives the derived tag and `SetLogDestination` (line 138) receives the
original, unmodified `log_dir` — the slash-appended `dir_ends_with_slash`
local of lines 123-126 is computed and never used.  The unconditional tail
(lines 141-145) models `getcwd` + `printf("Current working dir: %s\n", cwd)`
+ `working_dir_ = cwd`; `cwd = none` models a failing `getcwd`. -/
def StartArrowLog (backend : Backend) (st : LogState) (app_name : String)
    (severity_threshold : Int) (log_dir : String) (cwd : Option String) :
    LogState × GlogConfig × List Event :=
  let core :
      LogState × GlogConfig × List Event :=
    match backend with
    | Backend.glog =>
      let st1 := { st with severity_threshold_ := severity_threshold,
                           app_name_ := some app_name }
      let mapped := GetMappedSeverity severity_threshold
      let cfg0 : GlogConfig :=
        { initialized := true, stderrSeverity := some mapped.1 }
      let cfg :=
        if log_dir ≠ "" then
          { cfg0 with
            filenameExtension := some (appNameWithoutPath app_name),
            logDestination := some (mapped.1, log_dir) }
        else cfg0
      (st1, cfg, mapped.2)
    | Backend.cerr => (st, {}, [])
  match cwd with
  | some dir =>
    ({ core.1 with working_dir_ := dir },
     core.2.1,
     core.2.2 ++ [Event.write Chan.stdout ("Current working dir: " ++ dir ++ "\n")])
  | none => core

/-- Embeds `ArrowLog::ShutDownArrowLog()` (lines 148-152): releases glog when
configured, a no-op otherwise.  No console events either way. -/
def ShutDownArrowLog (backend : Backend) (cfg : GlogConfig) :
    GlogConfig × List Event :=
  match backend with
  | Backend.glog => ({ cfg with initialized := false }, [])
  | Backend.cerr => (cfg, [])

/-- Embeds `ArrowLog::InstallFailureSignalHandler()` (lines 154-158): forwards to
glog when configured, a no-op otherwise.  No console events. -/
def InstallFailureSignalHandler (backend : Backend) : List Event :=
  match backend with
  | Backend.glog => []
  | Backend.cerr => []

/-! ## The ArrowLog record (logging.cc lines 160-194) -/

/-- A `google::LogMessage` as used by the delegated backend: opened with
file/line/mapped severity, accumulating streamed fragments. -/
structure GlogMessage : Type where
  file_name : String
  line_number : Int
  glogSeverity : Int
  buffered : List String
  deriving DecidableEq, Repr

/-- Modelled from the spec: `google::LogMessage` destruction is behaviour of
the external glog library, not of this repository; per the spec,
"Destruction and process-termination-on-FATAL are delegated entirely to the
external subsystem's own record-destruction behavior".  The record is flushed
to the subsystem's stream, and a FATAL-severity record aborts the process. -/
def GlogMessage.destroy (msg : GlogMessage) : List Event :=
  [Event.write Chan.glogStream (String.join msg.buffered)] ++
    (if msg.glogSeverity = GLOG_FATAL then [Event.abortEv] else [])

/-- The object `ArrowLog::logging_provider_` points to: a `CerrLog` without
glog, a `google::LogMessage` with glog (the C++ stores a `void*` and
`reinterpret_cast`s it back to `LoggingProvider*`). -/
inductive Provider : Type where
  | cerr : CerrLog → Provider
  | glog : GlogMessage → Provider
  deriving DecidableEq, Repr

/-- An `ArrowLog` record: `bool is_enabled_` and the provider pointer,
`none` for `nullptr`. -/
structure ArrowLog : Type where
  is_enabled_ : Bool
  logging_provider_ : Option Provider
  deriving DecidableEq, Repr

/-- Embeds `ArrowLog::ArrowLog(file_name, line_number, severity)` (lines 160-176):
`is_enabled_(severity >= severity_threshold_)`, provider initialised to null.
With glog, only an enabled record allocates a `google::LogMessage` (tagged
with the mapped severity) and streams the `"(<app_name>): "` prefix into it;
a disabled record keeps the null provider.  (`app_name_.get()` is a null
`char*` when `StartArrowLog` has not run; streaming it is undefined behaviour
in C++, modelled here as the empty string.)  Without glog, a `CerrLog` is
allocated unconditionally and `<file>:<line>: ` is streamed through
`CerrLog::operator<<`, with no enabledness check. -/
def ArrowLog.construct (backend : Backend) (st : LogState) (file_name : String)
    (line_number : Int) (severity : Int) : ArrowLog × List Event :=
  let is_enabled : Bool := severity ≥ st.severity_threshold_
  match backend with
  | Backend.glog =>
    if is_enabled then
      let mapped := GetMappedSeverity severity
      let prefixStr := "(" ++ st.app_name_.getD "" ++ "): "
      let msg : GlogMessage :=
        { file_name := file_name, line_number := line_number,
          glogSeverity := mapped.1, buffered := [prefixStr] }
      ({ is_enabled_ := is_enabled, logging_provider_ := some (Provider.glog msg) },
        mapped.2 ++ [Event.write Chan.glogStream prefixStr])
    else
      ({ is_enabled_ := is_enabled, logging_provider_ := none }, [])
  | Backend.cerr =>
    let s1 := (CerrLog.new severity).append file_name
    let s2 := s1.1.append ":"
    let s3 := s2.1.append (toString line_number)
    let s4 := s3.1.append ": "
    ({ is_enabled_ := is_enabled, logging_provider_ := some (Provider.cerr s4.1) },
      s1.2 ++ s2.2 ++ s3.2 ++ s4.2)

/-- Embeds `bool ArrowLog::IsEnabled() const { return is_enabled_; }` (line 188). -/
def ArrowLog.IsEnabled (r : ArrowLog) : Bool := r.is_enabled_

/-- Embeds `ArrowLog::Stream()` (lines 178-186):
`reinterpret_cast<LoggingProvider*>(logging_provider_)->stream()` (glog) or
`->Stream()` (CerrLog).  A null `logging_provider_` is dereferenced with no
check — the source comments "Before calling this function, user should check
IsEnabled.  When IsEnabled == false, logging_provider_ will be empty."  The
null dereference (undefined behaviour) is modelled as `none`. -/
def ArrowLog.streamOp (r : ArrowLog) : Option ArrowLog :=
  match r.logging_provider_ with
  | none => none
  | some (Provider.cerr log) =>
    some { r with logging_provider_ := some (Provider.cerr log.streamAccess) }
  | some (Provider.glog _) => some r

/-- Modelled from the spec: the streaming append operation on a log record is
declared in `arrow/util/logging.h`, which is absent from the sources.  Per the
spec, "[Disabled] records accept appends as no-ops"; an enabled record's
append is delivered to the backend sink — `CerrLog::operator<<` for the
direct sink ("On each append of a value: if severity ≠ DEBUG, renders the
value to standard error and marks the record as has content"), and forwarded
"verbatim to the external subsystem's own stream" for the delegated sink. -/
def ArrowLog.append (r : ArrowLog) (t : String) : ArrowLog × List Event :=
  if r.is_enabled_ then
    match r.logging_provider_ with
    | some (Provider.cerr log) =>
      let s := log.append t
      ({ r with logging_provider_ := some (Provider.cerr s.1) }, s.2)
    | some (Provider.glog msg) =>
      let msg2 : GlogMessage := { msg with buffered := msg.buffered ++ [t] }
      ({ r with logging_provider_ := some (Provider.glog msg2) },
        [Event.write Chan.glogStream t])
    | none => (r, [])
  else (r, [])

/-- Embeds `ArrowLog::~ArrowLog()` (lines 190-194): `delete` the provider when
non-null, running the backend destructor; nothing otherwise. -/
def ArrowLog.destroy (r : ArrowLog) : List Event :=
  match r.logging_provider_ with
  | none => []
  | some (Provider.cerr log) => log.destroy
  | some (Provider.glog msg) => msg.destroy

/-- One full construct / append-one-value / destroy cycle of a log record
under the direct console sink, with the process threshold set to `threshold`:
the event trace it produces. -/
def directRun (threshold : Int) (file_name : String) (line_number : Int)
    (severity : Int) (msg : String) : List Event :=
  let st := { initialLogState with severity_threshold_ := threshold }
  let c := ArrowLog.construct Backend.cerr st file_name line_number severity
  let a := c.1.append msg
  c.2 ++ a.2 ++ a.1.destroy

/-! ## Helper lemmas -/

/-- The enabled flag stored by the constructor is `severity >= severity_threshold_`
under either backend. -/
theorem construct_is_enabled (backend : Backend) (st : LogState) (f : String)
    (l s : Int) :
    (ArrowLog.construct backend st f l s).1.is_enabled_
      = decide (s ≥ st.severity_threshold_) := by
  cases backend
  · rfl
  · unfold ArrowLog.construct
    dsimp only
    split <;> rfl

/-- Appending to a record never changes its enabled flag. -/
theorem append_is_enabled (r : ArrowLog) (t : String) :
    (r.append t).1.is_enabled_ = r.is_enabled_ := by
  unfold ArrowLog.append
  split
  · split <;> rfl
  · rfl

/-- Appending to a disabled record is a no-op producing no events. -/
theorem append_disabled (r : ArrowLog) (h : r.is_enabled_ = false) (t : String) :
    r.append t = (r, []) := by
  unfold ArrowLog.append
  rw [h]
  rfl

/-- Explicit form of the `CerrLog` destructor trace. -/
theorem CerrLog.destroy_eq (log : CerrLog) :
    log.destroy
      = (if log.has_logged_ then [Event.endl Chan.stderr] else [])
          ++ (if log.severity_ = ARROW_FATAL then
                [Event.backtrace (fdToChan 1), Event.abortEv]
              else []) := rfl

/-! ## Claims -/

/-- C2, counterexample: a log record constructed at FATAL severity while the
process-wide threshold holds the value `ARROW_FATAL + 1` (a value above FATAL)
has its enabled flag `false`, refuting "a log record constructed at FATAL
severity has its enabled flag true — including when the threshold is set to a
value above FATAL". -/
theorem fatal_record_disabled_when_threshold_above_fatal :
    (ArrowLog.construct Backend.cerr
        { initialLogState with severity_threshold_ := ARROW_FATAL + 1 }
        "file.cc" 10 ARROW_FATAL).1.IsEnabled = false := rfl

/-- C2, amended: for every threshold value not exceeding FATAL (in particular
every valid severity value, FATAL being the maximum), a log record constructed
at FATAL severity has its enabled flag true; only a threshold strictly above
FATAL disables it. -/
theorem fatal_record_enabled_for_thresholds_up_to_fatal
    (backend : Backend) (st : LogState) (f : String) (l : Int)
    (h : st.severity_threshold_ ≤ ARROW_FATAL) :
    (ArrowLog.construct backend st f l ARROW_FATAL).1.IsEnabled = true := by
  show (ArrowLog.construct backend st f l ARROW_FATAL).1.is_enabled_ = true
  rw [construct_is_enabled]
  simpa using h

/-- C2, witness: the amended theorem applied at the initial state (threshold
INFO) under the direct console sink. -/
theorem fatal_record_enabled_witness :
    (ArrowLog.construct Backend.cerr initialLogState "file.cc" 10
        ARROW_FATAL).1.IsEnabled = true :=
  fatal_record_enabled_for_thresholds_up_to_fatal Backend.cerr initialLogState
    "file.cc" 10 (by decide)

/-- C3: on every log-record construction at severity `s` under threshold `t`
the stored enabled flag equals `decide (s ≥ t)`; `IsEnabled` returns exactly
that stored flag (a pure query — it is a plain function of the record with no
event output); and the flag is immutable: appends and `Stream` calls leave it
unchanged. -/
theorem severity_gate_contract (backend : Backend) (st : LogState)
    (f : String) (l s : Int) (t : String) (r : ArrowLog) :
    ((ArrowLog.construct backend st f l s).1.IsEnabled
        = decide (s ≥ st.severity_threshold_))
    ∧ (r.IsEnabled = r.is_enabled_)
    ∧ ((r.append t).1.IsEnabled = r.IsEnabled)
    ∧ (r.streamOp.elim True fun r2 => r2.IsEnabled = r.IsEnabled) := by
  refine ⟨construct_is_enabled backend st f l s, rfl, append_is_enabled r t, ?_⟩
  unfold ArrowLog.streamOp
  match r.logging_provider_ with
  | none => trivial
  | some (Provider.cerr log) => rfl
  | some (Provider.glog msg) => rfl

/-- C10: under the delegated (glog) backend a record whose enabled flag is
false keeps `logging_provider_` null, and `Stream` on such a record
dereferences the null pointer (modelled as `none`); in general `Stream` on any
record with a null provider is the null dereference, so `Stream` is only safe
after `IsEnabled` returned true. -/
theorem disabled_glog_record_has_null_provider (st : LogState) (f : String)
    (l s : Int) (h : ¬ s ≥ st.severity_threshold_) :
    ((ArrowLog.construct Backend.glog st f l s).1.IsEnabled = false)
    ∧ ((ArrowLog.construct Backend.glog st f l s).1.logging_provider_ = none)
    ∧ ((ArrowLog.construct Backend.glog st f l s).1.streamOp = none)
    ∧ (∀ r : ArrowLog, r.logging_provider_ = none → r.streamOp = none) := by
  have hb : decide (s ≥ st.severity_threshold_) = false := by simpa using h
  unfold ArrowLog.construct
  dsimp only
  rw [hb]
  exact ⟨rfl, rfl, rfl, fun r hr => by unfold ArrowLog.streamOp; rw [hr]⟩

/-- C10, witness: a record at INFO severity with the threshold at WARNING
under the glog backend. -/
theorem disabled_glog_record_witness :
    ((ArrowLog.construct Backend.glog
        { initialLogState with severity_threshold_ := ARROW_WARNING }
        "file.cc" 10 ARROW_INFO).1.IsEnabled = false)
    ∧ ((ArrowLog.construct Backend.glog
        { initialLogState with severity_threshold_ := ARROW_WARNING }
        "file.cc" 10 ARROW_INFO).1.logging_provider_ = none)
    ∧ ((ArrowLog.construct Backend.glog
        { initialLogState with severity_threshold_ := ARROW_WARNING }
        "file.cc" 10 ARROW_INFO).1.streamOp = none) := by
  have h := disabled_glog_record_has_null_provider
    { initialLogState with severity_threshold_ := ARROW_WARNING }
    "file.cc" 10 ARROW_INFO (by decide)
  exact ⟨h.1, h.2.1, h.2.2.1⟩

/-- C1: on destruction of a direct-console-sink log record, exactly one line
terminator goes to standard error when content was written (none otherwise);
for FATAL severity the destructor trace is the optional terminator, then the
best-effort backtrace, then `abort` — terminator and backtrace strictly before
`abort`; for any severity other than FATAL no abort event occurs; and no other
direct-sink operation (record construction, append, `StartArrowLog`,
`ShutDownArrowLog`, `InstallFailureSignalHandler`) ever emits an abort event,
so this destructor path is the only terminating path.  The `ArrowLog`
destructor on a CerrLog-backed record is exactly the `CerrLog` destructor. -/
theorem cerrlog_destruction_finalizes_and_aborts_only_on_fatal (log : CerrLog) :
    (countStderrEndl log.destroy = if log.has_logged_ then 1 else 0)
    ∧ (log.severity_ = ARROW_FATAL →
        log.destroy
          = (if log.has_logged_ then [Event.endl Chan.stderr] else [])
              ++ [Event.backtrace (fdToChan 1), Event.abortEv])
    ∧ (log.severity_ ≠ ARROW_FATAL → Event.abortEv ∉ log.destroy)
    ∧ (∀ t, Event.abortEv ∉ (log.append t).2)
    ∧ (∀ st f l s, Event.abortEv ∉ (ArrowLog.construct Backend.cerr st f l s).2)
    ∧ (∀ st app s dir cwd,
        Event.abortEv ∉ (StartArrowLog Backend.cerr st app s dir cwd).2.2)
    ∧ (∀ cfg, (ShutDownArrowLog Backend.cerr cfg).2 = []
        ∧ InstallFailureSignalHandler Backend.cerr = [])
    ∧ (∀ r : ArrowLog, r.logging_provider_ = some (Provider.cerr log) →
        r.destroy = log.destroy) := by
  refine ⟨?_, ?_, ?_, ?_, ?_, ?_, fun cfg => ⟨rfl, rfl⟩, ?_⟩
  · by_cases hl : log.has_logged_ <;>
      by_cases hf : log.severity_ = ARROW_FATAL <;>
        simp [CerrLog.destroy_eq, hl, hf] <;> decide
  · intro hf
    simp [CerrLog.destroy_eq, hf]
  · intro hf
    rw [CerrLog.destroy_eq, if_neg hf]
    split <;> simp
  · intro t
    unfold CerrLog.append
    split <;> simp
  · intro st f l s
    by_cases hd : s = ARROW_DEBUG <;>
      simp [ArrowLog.construct, CerrLog.append, CerrLog.new, hd]
  · intro st app s dir cwd
    cases cwd <;> simp [StartArrowLog]
  · intro r hr
    unfold ArrowLog.destroy
    rw [hr]

/-- C1, witness: a FATAL record that has logged content is destroyed with the
trace terminator-backtrace-abort; an INFO record that has logged content is
destroyed without an abort event. -/
theorem cerrlog_destruction_witness :
    ((CerrLog.mk ARROW_FATAL true).destroy
        = [Event.endl Chan.stderr, Event.backtrace (fdToChan 1), Event.abortEv])
    ∧ (decide (Event.abortEv ∈ (CerrLog.mk ARROW_INFO true).destroy) = false) := by
  constructor
  · simpa using
      (cerrlog_destruction_finalizes_and_aborts_only_on_fatal
        (CerrLog.mk ARROW_FATAL true)).2.1 rfl
  · exact decide_eq_false
      ((cerrlog_destruction_finalizes_and_aborts_only_on_fatal
        (CerrLog.mk ARROW_INFO true)).2.2.1 (by decide))

/-- C4, counterexample: under the direct console sink with threshold WARNING,
constructing, appending "hello" to, and destroying a record at INFO severity
produces `"file.cc:10: \n"` on standard error — a 13-character string, not the
empty output the claim states: the constructor streams the `file:line:` prefix
through `CerrLog::operator<<` with no enabledness check, and the destructor
then emits the line terminator. -/
theorem disabled_info_record_still_writes_prefix :
    (stderrText (directRun ARROW_WARNING "file.cc" 10 ARROW_INFO "hello")
        = "file.cc:10: \n")
    ∧ ("file.cc:10: \n").length = 13 := ⟨rfl, rfl⟩

/-- C4, amended: with threshold WARNING under the direct sink, an INFO-severity
record produces exactly the prefix `"file.cc:10: "` and one line terminator on
standard error, whatever content is appended (appends to the disabled record
are no-ops, but construction and destruction still write); a WARNING-severity
record with "hello" appended produces `"file.cc:10: hello"` followed by the
line terminator. -/
theorem direct_sink_warning_threshold_scenario (msg : String) :
    (directRun ARROW_WARNING "file.cc" 10 ARROW_INFO msg
      = [Event.write Chan.stderr "file.cc", Event.write Chan.stderr ":",
         Event.write Chan.stderr "10", Event.write Chan.stderr ": ",
         Event.endl Chan.stderr])
    ∧ (stderrText (directRun ARROW_WARNING "file.cc" 10 ARROW_INFO msg)
        = "file.cc:10: \n")
    ∧ (stderrText (directRun ARROW_WARNING "file.cc" 10 ARROW_WARNING "hello")
        = "file.cc:10: hello\n") := by
  have hr : (ArrowLog.construct Backend.cerr
        { initialLogState with severity_threshold_ := ARROW_WARNING }
        "file.cc" 10 ARROW_INFO).1.append msg
      = ((ArrowLog.construct Backend.cerr
          { initialLogState with severity_threshold_ := ARROW_WARNING }
          "file.cc" 10 ARROW_INFO).1, []) :=
    append_disabled _ rfl msg
  have htrace : directRun ARROW_WARNING "file.cc" 10 ARROW_INFO msg
      = [Event.write Chan.stderr "file.cc", Event.write Chan.stderr ":",
         Event.write Chan.stderr "10", Event.write Chan.stderr ": ",
         Event.endl Chan.stderr] := by
    simp only [directRun]
    rw [hr]
    rfl
  exact ⟨htrace, by rw [htrace]; rfl, rfl⟩

/-- C5, counterexample: without glog (the direct-console configuration),
`StartArrowLog` with threshold WARNING leaves the process-wide threshold at
its static-initialiser value INFO — the assignment
`severity_threshold_ = severity_threshold` sits inside `#ifdef ARROW_USE_GLOG`
— refuting "after every call to Start, in both backend configurations, the
process-wide severity threshold equals the severity_threshold argument". -/
theorem start_without_glog_ignores_threshold :
    ((StartArrowLog Backend.cerr initialLogState "app" ARROW_WARNING ""
        (some "/home/user")).1.severity_threshold_ = ARROW_INFO)
    ∧ ARROW_INFO < ARROW_WARNING := ⟨rfl, by decide⟩

/-- C5, amended: `StartArrowLog` records its `severity_threshold` argument in
the process-wide state only under the delegated (glog) configuration; under
the direct console sink it leaves the threshold unchanged (permanently at the
static initialiser INFO).  In both configurations every subsequent log-record
construction reads the threshold held in the state. -/
theorem start_records_threshold_only_under_glog (st : LogState) (app : String)
    (t : Int) (dir : String) (cwd : Option String) :
    ((StartArrowLog Backend.glog st app t dir cwd).1.severity_threshold_ = t)
    ∧ ((StartArrowLog Backend.cerr st app t dir cwd).1.severity_threshold_
        = st.severity_threshold_)
    ∧ (∀ backend f l s,
        (ArrowLog.construct backend
            (StartArrowLog backend st app t dir cwd).1 f l s).1.IsEnabled
          = decide (s ≥ (StartArrowLog backend st app t dir cwd).1.severity_threshold_)) := by
  refine ⟨?_, ?_, fun backend f l s => construct_is_enabled backend _ f l s⟩
  · cases cwd <;> rfl
  · cases cwd <;> rfl

/-- C6: under the direct console sink, content appended to a DEBUG-severity
record never reaches standard error even when the record is enabled by the
threshold check (threshold at or below DEBUG): the whole
construct-append-destroy cycle emits no event at all, and
`CerrLog::operator<<` at DEBUG severity discards its argument without setting
`has_logged_` — the content is suppressed while the record itself exists and
is enabled. -/
theorem debug_content_suppressed_even_when_enabled (threshold : Int)
    (h : threshold ≤ ARROW_DEBUG) (f : String) (l : Int) (msg : String) :
    ((ArrowLog.construct Backend.cerr
        { initialLogState with severity_threshold_ := threshold }
        f l ARROW_DEBUG).1.IsEnabled = true)
    ∧ (directRun threshold f l ARROW_DEBUG msg = [])
    ∧ (∀ log : CerrLog, log.severity_ = ARROW_DEBUG →
        log.append msg = (log, [])) := by
  have hb : decide (ARROW_DEBUG ≥ threshold) = true := by simpa using h
  refine ⟨?_, ?_, ?_⟩
  · show (ArrowLog.construct Backend.cerr
        { initialLogState with severity_threshold_ := threshold }
        f l ARROW_DEBUG).1.is_enabled_ = true
    rw [construct_is_enabled]
    exact hb
  · have hc : ArrowLog.construct Backend.cerr
        { initialLogState with severity_threshold_ := threshold } f l ARROW_DEBUG
        = ({ is_enabled_ := decide (ARROW_DEBUG ≥ threshold),
             logging_provider_ :=
               some (Provider.cerr (CerrLog.mk ARROW_DEBUG false)) }, []) := rfl
    simp only [directRun]
    rw [hc, hb]
    rfl
  · intro log hl
    unfold CerrLog.append
    simp [hl]

/-- C6, witness: threshold DEBUG, a DEBUG record at `file.cc:10` with "hello"
appended: the record is enabled, yet the cycle emits nothing. -/
theorem debug_content_suppressed_witness :
    ((ArrowLog.construct Backend.cerr
        { initialLogState with severity_threshold_ := ARROW_DEBUG }
        "file.cc" 10 ARROW_DEBUG).1.IsEnabled = true)
    ∧ (directRun ARROW_DEBUG "file.cc" 10 ARROW_DEBUG "hello" = [])
    ∧ ((CerrLog.mk ARROW_DEBUG false).append "hello"
        = (CerrLog.mk ARROW_DEBUG false, [])) := by
  have h := debug_content_suppressed_even_when_enabled ARROW_DEBUG (by decide)
    "file.cc" 10 "hello"
  exact ⟨h.1, h.2.1, h.2.2 _ rfl⟩

/-- C8, counterexample: (a) with glog configured, `Start` with the non-empty
directory `"/tmp"` configures file output with the original `"/tmp"` — the
slash-appended copy `dir_ends_with_slash` (here `"/tmp/"`) is computed and
never used, `SetLogDestination` at logging.cc line 138 receiving `log_dir`
itself — refuting "a path separator is appended to the directory if it does
not already end with one"; and (b) for the application name `"myapp/"`
(ending in the path separator) the derived log-file tag is `"myapp/"` itself
— `rfind` finds the separator at the last position, `pos + 1 < length`
fails, and the name is used unchanged, separator included — refuting "any
path prefix is stripped from the application name". -/
theorem separator_not_appended_and_trailing_name_not_stripped :
    ((StartArrowLog Backend.glog initialLogState "app" ARROW_INFO "/tmp"
        none).2.1.logDestination = some (GLOG_INFO, "/tmp"))
    ∧ (dirEndsWithSlash "/tmp" = "/tmp/")
    ∧ (appNameWithoutPath "myapp/" = "myapp/")
    ∧ ('/' ∈ (appNameWithoutPath "myapp/").data) := by
  exact ⟨rfl, rfl, rfl, by decide⟩

/-- C8, amended: when `StartArrowLog` runs with glog configured and a
non-empty `log_directory`, file output is configured with the original
directory string exactly as passed — the slash-appended copy is computed but
never used, so no path separator is appended to the directory that file
output uses — and with the log-file tag derived from the application name:
an empty name yields `"DefaultApp"`, and the path prefix is stripped exactly
when at least one character follows the last separator (so
`"/usr/bin/myapp"` yields `"myapp"`, while a name ending in the separator is
used unchanged); with an empty directory no file destination is
configured. -/
theorem start_file_logging_configuration (st : LogState) (app : String)
    (t : Int) (cwd : Option String) (dir : String) (hdir : dir ≠ "") :
    ((StartArrowLog Backend.glog st app t dir cwd).2.1.filenameExtension
        = some (appNameWithoutPath app))
    ∧ ((StartArrowLog Backend.glog st app t dir cwd).2.1.logDestination
        = some ((GetMappedSeverity t).1, dir))
    ∧ (∀ st2 app2 t2 cwd2,
        (StartArrowLog Backend.glog st2 app2 t2 "" cwd2).2.1.logDestination
          = none)
    ∧ (appNameWithoutPath "" = "DefaultApp")
    ∧ (∀ name : String, ∀ pos : Nat, lastSlashIdx name.data = some pos →
        pos + 1 < name.length →
        appNameWithoutPath name = String.mk (name.data.drop (pos + 1)))
    ∧ (appNameWithoutPath "/usr/bin/myapp" = "myapp") := by
  refine ⟨?_, ?_, ?_, rfl, ?_, rfl⟩
  · cases cwd <;> simp [StartArrowLog, hdir]
  · cases cwd <;> simp [StartArrowLog, hdir]
  · intro st2 app2 t2 cwd2
    cases cwd2 <;> simp [StartArrowLog]
  · intro name pos hpos hlt
    have hne : ¬ name = "" := by
      intro he
      rw [he] at hpos
      simp [lastSlashIdx] at hpos
    unfold appNameWithoutPath
    rw [if_neg hne, hpos]
    dsimp only
    rw [if_pos hlt]

/-- C8, witness: `Start("/usr/bin/myapp", INFO, "/tmp")` with glog: file
output is configured with `"/tmp"` as passed, and the tag is the name after
the last separator, `"myapp"`. -/
theorem start_file_logging_witness :
    ((StartArrowLog Backend.glog initialLogState "/usr/bin/myapp" ARROW_INFO
        "/tmp" none).2.1.filenameExtension
      = some (appNameWithoutPath "/usr/bin/myapp"))
    ∧ ((StartArrowLog Backend.glog initialLogState "/usr/bin/myapp" ARROW_INFO
        "/tmp" none).2.1.logDestination
      = some ((GetMappedSeverity ARROW_INFO).1, "/tmp"))
    ∧ (appNameWithoutPath "/usr/bin/myapp"
        = String.mk (("/usr/bin/myapp").data.drop 9)) := by
  have h := start_file_logging_configuration initialLogState "/usr/bin/myapp"
    ARROW_INFO none "/tmp" (by decide)
  exact ⟨h.1, h.2.1,
    h.2.2.2.2.1 "/usr/bin/myapp" 8 (by decide) (by decide)⟩

/-- C9, counterexample: the startup operation's diagnostic line
`"Current working dir: ..."` is written with `printf`, i.e. to standard
output, refuting "every console write performed by this facility goes to
standard error only". -/
theorem start_diagnostic_printed_to_stdout :
    ((StartArrowLog Backend.cerr initialLogState "app" ARROW_INFO ""
        (some "/home/user")).2.2
      = [Event.write Chan.stdout "Current working dir: /home/user\n"])
    ∧ (Event.onChan Chan.stdout
        (Event.write Chan.stdout "Current working dir: /home/user\n") = true) :=
  ⟨rfl, rfl⟩

/-- Every event of a `CerrLog` destructor trace is the standard-error line
terminator, the fd-1 backtrace, or the abort. -/
theorem destroy_events_subset (log : CerrLog) (e : Event)
    (he : e ∈ log.destroy) :
    e = Event.endl Chan.stderr ∨ e = Event.backtrace (fdToChan 1)
      ∨ e = Event.abortEv := by
  rw [CerrLog.destroy_eq] at he
  rcases List.mem_append.mp he with h | h
  · left
    split at h
    · simpa using h
    · simp at h
  · right
    split at h
    · simpa using h
    · simp at h

/-- C9, amended: under the direct console sink, record prefixes, streamed
content and line terminators go to standard error only; the two exceptions
are (a) `StartArrowLog`, whose only console events are
`"Current working dir: ..."` lines on standard output (via `printf`), and
(b) the FATAL backtrace, which `PrintBackTrace` writes to file descriptor 1 —
standard output, not standard error. -/
theorem console_writes_stderr_except_cwd_and_backtrace
    (st : LogState) (f t app dir : String) (l s : Int) (log : CerrLog)
    (cwd : Option String) :
    (∀ e ∈ (ArrowLog.construct Backend.cerr st f l s).2,
        e.onChan Chan.stderr = true)
    ∧ (∀ e ∈ (log.append t).2, e.onChan Chan.stderr = true)
    ∧ (∀ e ∈ log.destroy,
        e.onChan Chan.stderr = true ∨ e = Event.backtrace (fdToChan 1)
          ∨ e = Event.abortEv)
    ∧ (fdToChan 1 = Chan.stdout)
    ∧ (∀ e ∈ (StartArrowLog Backend.cerr st app s dir cwd).2.2,
        ∃ d, e = Event.write Chan.stdout ("Current working dir: " ++ d ++ "\n")) := by
  refine ⟨?_, ?_, ?_, rfl, ?_⟩
  · by_cases hd : s = ARROW_DEBUG <;>
      simp [ArrowLog.construct, CerrLog.append, CerrLog.new, hd, Event.onChan]
  · unfold CerrLog.append
    split <;> simp [Event.onChan]
  · intro e he
    rcases destroy_events_subset log e he with rfl | rfl | rfl
    · exact Or.inl rfl
    · exact Or.inr (Or.inl rfl)
    · exact Or.inr (Or.inr rfl)
  · intro e he
    cases cwd with
    | none => simp [StartArrowLog] at he
    | some d =>
      simp [StartArrowLog] at he
      exact ⟨d, he⟩

/-- C9, witness: the record prefix fragment goes to standard error, and the
line terminator emitted by a destructor is a standard-error event. -/
theorem console_writes_witness :
    (Event.onChan Chan.stderr (Event.write Chan.stderr "file.cc") = true)
    ∧ (Event.onChan Chan.stderr (Event.endl Chan.stderr) = true
        ∨ Event.endl Chan.stderr = Event.backtrace (fdToChan 1)
        ∨ Event.endl Chan.stderr = Event.abortEv) := by
  have h := console_writes_stderr_except_cwd_and_backtrace initialLogState
    "file.cc" "hello" "app" "" 10 ARROW_INFO (CerrLog.mk ARROW_INFO true) none
  exact ⟨h.1 _ (by decide), h.2.2.1 _ (by decide)⟩

end ArrowLogging
